import Mathlib

/-!
Shallow embedding of the prediction-tracking core of `predict.py`
(classes `Prediction`, `PredictionStorage`, `InteractivePredictionBuilder`,
`InteractivePredictionSolver`) together with theorems settling the frozen
claims about it.

Modelling conventions:
* a Python `str` value is modelled as `PyStr := List Char`;
* a `datetime` is modelled as an integer point on a totally ordered
  time line (`ℤ`); only comparisons between datetimes are used by the code;
* a Python `float` is modelled as `ℚ` (the concrete confidences appearing
  in the claims, 1.0 and 0.5, are exactly representable, so exact
  arithmetic agrees with the floating point evaluation);
* `None`-able fields are `Option`s where the code distinguishes `None`
  (`outcome`, `proof`); fields that the claims always exercise with a set
  value (`statement`, `confidence`, `realization_date`) are plain;
* the `md5` digest is an uninterpreted function argument `PyStr → PyStr`:
  every theorem about `hash` quantifies over it, since only determinism of
  the digest is relevant to the claims;
* the storage dictionary is an association list `List (PyStr × Prediction)`
  with Python dict semantics (assignment replaces in place or appends);
* Python exceptions surface as `Except String`.
-/

/-- Python strings, modelled as their character sequences. -/
abbrev PyStr := List Char

/-- Python `str.split(sep)` with a one-character separator, accumulator form:
scanning the remaining characters, the current fragment is held reversed. -/
def pySplitAux (sep : Char) : List Char → List Char → List PyStr
  | [], acc => [acc.reverse]
  | c :: rest, acc =>
    if c = sep then acc.reverse :: pySplitAux sep rest []
    else pySplitAux sep rest (c :: acc)

/-- Python `str.split(sep)` with a one-character separator: fragments between
occurrences of `sep`, empty fragments kept (`"".split(sep) == [""]`). -/
def pySplit (sep : Char) (s : PyStr) : List PyStr := pySplitAux sep s []

/-- Python `str.strip()`: remove leading and trailing whitespace. -/
def pyStrip (s : PyStr) : PyStr :=
  ((s.dropWhile Char.isWhitespace).reverse.dropWhile Char.isWhitespace).reverse

/-- Python `str.upper()` (ASCII fragment, which covers the tag inputs the
claims quantify over). -/
def pyUpper (s : PyStr) : PyStr := s.map Char.toUpper

/-- Python textual rendering `str(x)` of a confidence float; the claims only
use that the rendering is a function of the value. -/
def pyStrRat (q : ℚ) : PyStr := (toString q).data

/-- Python textual rendering `str(x)` of a datetime; the claims only use that
the rendering is a function of the value. -/
def pyStrInt (n : ℤ) : PyStr := (toString n).data

/-- The record held by class `Prediction` in `predict.py`: the four identity
fields set at construction time, plus the mutable resolution fields
(`outcome`, `proof`) and `tags`. `outcome` starts as `None` (here `none`) and
`proof` starts as the empty string. -/
structure Prediction where
  statement : PyStr
  outcome : Option Bool
  confidence : ℚ
  realization_date : ℤ
  emission_date : ℤ
  tags : List PyStr
  proof : Option PyStr
deriving DecidableEq

/-- The three derived lifecycle states returned by `Prediction.get_status`
(the Python code returns the strings `solved`, `future`, `pending`). -/
inductive Status where
  | solved
  | future
  | pending
deriving DecidableEq

namespace Prediction

/-- Method `Prediction.get_status`: `solved` when `outcome is not None`,
otherwise `future` when `realization_date > now`, otherwise `pending`.
The ambient `datetime.now()` of the Python code is the explicit `now`. -/
def get_status (p : Prediction) (now : ℤ) : Status :=
  if p.outcome.isSome then Status.solved
  else if now < p.realization_date then Status.future
  else Status.pending

/-- The byte string fed to md5 in method `Prediction.hash`:
`str(statement) + str(confidence) + str(realization_date) + str(emission_date)`. -/
def hash_input (p : Prediction) : PyStr :=
  p.statement ++ pyStrRat p.confidence ++ pyStrInt p.realization_date
    ++ pyStrInt p.emission_date

/-- Method `Prediction.hash`: the md5 hex digest of `hash_input`; the digest
function itself is an uninterpreted argument. -/
def hash (p : Prediction) (md5 : PyStr → PyStr) : PyStr := md5 (hash_input p)

/-- Method `Prediction.short_hash`: the first six characters of `hash`. -/
def short_hash (p : Prediction) (md5 : PyStr → PyStr) : PyStr :=
  (p.hash md5).take 6

end Prediction

/-- Lemma: the status is `solved` exactly when the outcome is set, whatever
`now` is. -/
theorem get_status_eq_solved_iff (p : Prediction) (now : ℤ) :
    p.get_status now = Status.solved ↔ p.outcome ≠ none := by
  cases h : p.outcome with
  | none => simp [Prediction.get_status, h]; split <;> simp
  | some b => simp [Prediction.get_status, h]

/-- C4: status is `solved` exactly when the outcome is set, regardless of the
realization date; with the outcome unset it is `future` exactly when
`realization_date > now` and `pending` exactly when `realization_date ≤ now`. -/
theorem get_status_spec (p : Prediction) (now : ℤ) :
    (p.get_status now = Status.solved ↔ p.outcome ≠ none) ∧
    (p.get_status now = Status.future ↔
      p.outcome = none ∧ now < p.realization_date) ∧
    (p.get_status now = Status.pending ↔
      p.outcome = none ∧ p.realization_date ≤ now) := by
  refine ⟨get_status_eq_solved_iff p now, ?_, ?_⟩
  · cases h : p.outcome with
    | some b => simp [Prediction.get_status, h]
    | none =>
      by_cases hd : now < p.realization_date <;>
        simp [Prediction.get_status, h, hd]
  · cases h : p.outcome with
    | some b => simp [Prediction.get_status, h]
    | none =>
      by_cases hd : now < p.realization_date <;>
        simp [Prediction.get_status, h, hd] <;> omega

namespace PredictionStorage

/-- Static method `PredictionStorage.compute_brier_score`: filter the input
to the predictions whose status is `solved`; when none remain return the
sentinel `2`; otherwise the mean of `(confidence - outcome) ** 2`, with the
outcome read as `1` when the stored outcome `is True` and `0` otherwise. -/
def compute_brier_score (prediction_list : List Prediction) (now : ℤ) : ℚ :=
  let solved_list := prediction_list.filter
    (fun p => decide (p.get_status now = Status.solved))
  if solved_list.length = 0 then 2
  else
    ((solved_list.map
        (fun p => (p.confidence - (if p.outcome = some true then 1 else 0)) ^ 2)).sum)
      / (solved_list.length : ℚ)

end PredictionStorage

/-- Modelled from the spec wording of the scorer, for comparison with the
code: a prediction is resolved when its outcome is set. -/
def spec_resolved (p : Prediction) : Bool := p.outcome.isSome

/-- Modelled from the spec wording of the scorer, for comparison with the
code: the observed value is 1 when the outcome is true and 0 when false. -/
def spec_observed (p : Prediction) : ℚ := if p.outcome = some true then 1 else 0

/-- Modelled from the spec wording of the scorer, for comparison with the
code: the mean of `(confidence - observed)^2` over the resolved predictions. -/
def spec_brier_mean (l : List Prediction) : ℚ :=
  (((l.filter spec_resolved).map (fun p => (p.confidence - spec_observed p) ^ 2)).sum)
    / ((l.filter spec_resolved).length : ℚ)

/-- Lemma: filtering on status `solved` is filtering on a set outcome. -/
theorem filter_solved_eq_filter_resolved (l : List Prediction) (now : ℤ) :
    l.filter (fun p => decide (p.get_status now = Status.solved))
      = l.filter spec_resolved := by
  apply List.filter_congr
  intro p _
  cases h : p.outcome with
  | some b => simp [spec_resolved, Prediction.get_status, h]
  | none =>
    by_cases hd : now < p.realization_date <;>
      simp [spec_resolved, Prediction.get_status, h, hd]

/-- C1: on an input holding at least one resolved prediction,
`compute_brier_score` is the mean of `(confidence - observed)^2` over exactly
the resolved predictions (unresolved ones contribute nothing), and on a
single resolved prediction it takes the three concrete values the claim
lists. -/
theorem compute_brier_score_is_resolved_mean :
    (∀ (l : List Prediction) (now : ℤ), (∃ p ∈ l, spec_resolved p = true) →
      PredictionStorage.compute_brier_score l now = spec_brier_mean l) ∧
    (∀ (now : ℤ) (p : Prediction), p.confidence = 1 → p.outcome = some true →
      PredictionStorage.compute_brier_score [p] now = 0) ∧
    (∀ (now : ℤ) (p : Prediction), p.confidence = 1 → p.outcome = some false →
      PredictionStorage.compute_brier_score [p] now = 1) ∧
    (∀ (now : ℤ) (p : Prediction) (b : Bool), p.confidence = 1/2 →
      p.outcome = some b →
      PredictionStorage.compute_brier_score [p] now = 1/4) := by
  have hmain : ∀ (l : List Prediction) (now : ℤ),
      (∃ p ∈ l, spec_resolved p = true) →
      PredictionStorage.compute_brier_score l now = spec_brier_mean l := by
    intro l now h
    obtain ⟨p, hp, hres⟩ := h
    have hne : l.filter spec_resolved ≠ [] := by
      intro hcontra
      have hmem : p ∈ l.filter spec_resolved := List.mem_filter.mpr ⟨hp, hres⟩
      rw [hcontra] at hmem
      exact List.not_mem_nil p hmem
    simp only [PredictionStorage.compute_brier_score, spec_brier_mean,
      spec_observed, filter_solved_eq_filter_resolved]
    rw [if_neg]
    simpa [List.length_eq_zero] using hne
  refine ⟨hmain, ?_, ?_, ?_⟩
  · intro now p hc ho
    rw [hmain [p] now ⟨p, List.mem_singleton_self p, by simp [spec_resolved, ho]⟩]
    simp [spec_brier_mean, spec_resolved, spec_observed, ho, hc]
  · intro now p hc ho
    rw [hmain [p] now ⟨p, List.mem_singleton_self p, by simp [spec_resolved, ho]⟩]
    simp [spec_brier_mean, spec_resolved, spec_observed, ho, hc]
  · intro now p b hc ho
    rw [hmain [p] now ⟨p, List.mem_singleton_self p, by simp [spec_resolved, ho]⟩]
    cases b <;> simp [spec_brier_mean, spec_resolved, spec_observed, ho, hc] <;>
      norm_num

/-- A concrete resolved prediction with confidence one half. -/
def p_half_true : Prediction :=
  { statement := "rain tomorrow".data, outcome := some true, confidence := 1/2,
    realization_date := 5, emission_date := 0, tags := [], proof := some [] }

/-- Witness for C1: one resolved prediction with confidence 1/2 and outcome
true scores 1/4, and the score is the resolved mean. -/
theorem compute_brier_score_is_resolved_mean_witness :
    PredictionStorage.compute_brier_score [p_half_true] 10
        = spec_brier_mean [p_half_true] ∧
    PredictionStorage.compute_brier_score [p_half_true] 10 = 1/4 :=
  ⟨compute_brier_score_is_resolved_mean.1 [p_half_true] 10
      ⟨p_half_true, List.mem_singleton_self p_half_true, rfl⟩,
   compute_brier_score_is_resolved_mean.2.2.2 10 p_half_true true rfl rfl⟩

/-- C2: when no prediction of the input is resolved — in particular on the
empty input — `compute_brier_score` returns exactly the sentinel 2. -/
theorem compute_brier_score_no_data_sentinel (l : List Prediction) (now : ℤ)
    (h : ∀ p ∈ l, p.outcome = none) :
    PredictionStorage.compute_brier_score l now = 2 := by
  have hfil : l.filter (fun p => decide (p.get_status now = Status.solved)) = [] := by
    rw [List.filter_eq_nil_iff]
    intro p hp
    have hnone := h p hp
    by_cases hd : now < p.realization_date <;>
      simp [Prediction.get_status, hnone, hd]
  simp [PredictionStorage.compute_brier_score, hfil]

/-- Witness for C2: the empty collection scores exactly 2. -/
theorem compute_brier_score_no_data_sentinel_witness :
    PredictionStorage.compute_brier_score [] 0 = 2 :=
  compute_brier_score_no_data_sentinel [] 0 (by intro p hp; cases hp)

namespace InteractivePredictionBuilder

/-- Attribute names of a `Prediction` object that do not start with a double
underscore, as `dir()` enumerates them (alphabetically) inside
`InteractivePredictionBuilder.get_errors`: the seven instance fields plus the
three public methods. -/
def public_attrs : List PyStr :=
  ["confidence".data, "emission_date".data, "get_status".data, "hash".data,
   "outcome".data, "proof".data, "realization_date".data, "short_hash".data,
   "statement".data, "tags".data]

/-- Python `attr is None` where `attr` is a `str` object: a string is never
the `None` object, so the test is false on every input. This is the test
`get_errors` applies to each attribute NAME (not to the attribute value). -/
def str_is_none (s : PyStr) : Bool := false

/-- Method `InteractivePredictionBuilder.get_errors`: the comprehension
over `public_attrs` keeping the names for which `attr is None` holds and
formatting them as `... not set`. Because the filter inspects the name
string, not the draft, the result never depends on the draft. -/
def get_errors : List PyStr :=
  (public_attrs.filter (fun attr => str_is_none attr)).map
    (fun attr => attr ++ " not set".data)

/-- Method `InteractivePredictionBuilder.build`: return the draft when
`get_errors()` is falsy (the empty list); fall through to `None` otherwise. -/
def build (draft : Prediction) : Option Prediction :=
  if get_errors.length = 0 then some draft else none

/-- The tag normalization inside method `InteractivePredictionBuilder.edit`:
split the input on commas, strip each fragment, drop the fragments that are
empty after stripping, upper-case the rest. -/
def edit_tags (tag_input : PyStr) : List PyStr :=
  (pySplit ',' tag_input).filterMap
    (fun t => if (pyStrip t).length ≠ 0 then some (pyUpper (pyStrip t)) else none)

/-- Method `InteractivePredictionBuilder.edit`: effect on the draft. -/
def edit (draft : Prediction) (tag_input : PyStr) : Prediction :=
  { draft with tags := edit_tags tag_input }

end InteractivePredictionBuilder

/-- A draft violating all three validation rules of the spec at once: empty
statement, confidence outside the unit interval, realization date not after
the emission date. -/
def invalid_draft : Prediction :=
  { statement := [], outcome := none, confidence := 2,
    realization_date := 0, emission_date := 0, tags := [], proof := some [] }

/-- C3 (code bug): the draft violates every validation rule, yet `get_errors`
is the empty list — the comprehension asks whether the attribute NAME string
`is None`, which never holds — and `build` finalizes the draft anyway. -/
theorem build_accepts_invalid_draft :
    (invalid_draft.confidence < 0 ∨ 1 < invalid_draft.confidence) ∧
    invalid_draft.realization_date ≤ invalid_draft.emission_date ∧
    pyStrip invalid_draft.statement = [] ∧
    InteractivePredictionBuilder.get_errors = [] ∧
    InteractivePredictionBuilder.build invalid_draft = some invalid_draft := by
  refine ⟨Or.inr (by norm_num [invalid_draft]), ?_, rfl, rfl, rfl⟩
  simp [invalid_draft]

/-- Modelled from the amended claim wording for the tag edit: strip each
comma separated token, discard the tokens that are empty after stripping,
upper-case the rest, keeping input order and duplicates. -/
def spec_normalized_tags (tag_input : PyStr) : List PyStr :=
  (((pySplit ',' tag_input).map pyStrip).filter (fun t => decide (t ≠ []))).map pyUpper

/-- Lemma: the one-pass comprehension of `edit` equals the strip-filter-upper
pipeline, on any token list. -/
theorem filterMap_strip_upper (l : List PyStr) :
    l.filterMap
        (fun t => if (pyStrip t).length ≠ 0 then some (pyUpper (pyStrip t)) else none)
      = ((l.map pyStrip).filter (fun t => decide (t ≠ []))).map pyUpper := by
  induction l with
  | nil => rfl
  | cons t rest ih =>
    simp only [List.filterMap_cons, List.map_cons, List.filter_cons]
    by_cases h : pyStrip t = []
    · simp [h]
      simpa using ih
    · have hlen : (pyStrip t).length ≠ 0 := by
        simpa [List.length_eq_zero] using h
      simp [h, hlen]
      simpa using ih

/-- A well-formed draft used by the concrete tag-edit evaluations. -/
def blank_draft : Prediction :=
  { statement := "x".data, outcome := none, confidence := 1,
    realization_date := 1, emission_date := 0, tags := [], proof := some [] }

/-- C8 (counterexample): the edit phase does not de-duplicate: on the input
`a,a` the tags become the two-element list `A, A`, which has a duplicate. -/
theorem edit_tags_not_deduplicated :
    (InteractivePredictionBuilder.edit blank_draft ("a,a".data)).tags
        = ["A".data, "A".data] ∧
    ¬ ((InteractivePredictionBuilder.edit blank_draft ("a,a".data)).tags).Nodup := by
  constructor
  · decide
  · decide

/-- C8 (amended): the edit phase sets the tags to the trimmed, upper-cased
tokens of the comma separated input with tokens that are empty after
trimming discarded, in input order and with duplicates retained. -/
theorem edit_tags_amended (draft : Prediction) (tag_input : PyStr) :
    (InteractivePredictionBuilder.edit draft tag_input).tags
      = spec_normalized_tags tag_input := by
  show InteractivePredictionBuilder.edit_tags tag_input = spec_normalized_tags tag_input
  unfold InteractivePredictionBuilder.edit_tags spec_normalized_tags
  exact filterMap_strip_upper (pySplit ',' tag_input)

/-- The in-memory content of `PredictionStorage`: the Python dict from short
hash to prediction, as an association list in insertion order. -/
abbrev Storage := List (PyStr × Prediction)

namespace PredictionStorage

/-- Python dict assignment `content[key] = p`: replace in place when the key
is present, append otherwise. -/
def dict_set (content : Storage) (key : PyStr) (p : Prediction) : Storage :=
  if content.any (fun kv => decide (kv.1 = key)) then
    content.map (fun kv => if kv.1 = key then (key, p) else kv)
  else content ++ [(key, p)]

/-- Method `PredictionStorage.add`: store the prediction under its short
hash. -/
def add (md5 : PyStr → PyStr) (content : Storage) (prediction : Prediction) :
    Storage :=
  dict_set content (prediction.short_hash md5) prediction

/-- Method `PredictionStorage.delete`: `content.pop(identifier, None)` — the
entry is removed when present, and removing an absent key is a no-op. -/
def delete (content : Storage) (identifier : PyStr) : Storage :=
  content.filter (fun kv => decide (kv.1 ≠ identifier))

/-- Python `content.values()` in insertion order. -/
def values (content : Storage) : List Prediction := content.map Prod.snd

/-- Method `PredictionStorage.get_past`: the stored predictions with
`realization_date < now` — note the strict comparison in the source. -/
def get_past (content : Storage) (now : ℤ) : List Prediction :=
  (values content).filter (fun p => decide (p.realization_date < now))

/-- Method `PredictionStorage.get_future`: the stored predictions with
`realization_date > now`. -/
def get_future (content : Storage) (now : ℤ) : List Prediction :=
  (values content).filter (fun p => decide (now < p.realization_date))

/-- Python `sorted(key=lambda x: x.realization_date)`, insertion step: place
the new element after the existing elements with a date not above its own. -/
def insert_by_date (p : Prediction) : List Prediction → List Prediction
  | [] => [p]
  | q :: rest =>
    if q.realization_date ≤ p.realization_date then q :: insert_by_date p rest
    else p :: q :: rest

/-- Python `sorted` by realization date (a stable insertion sort; the
theorems only evaluate it on concrete lists). -/
def sort_by_date (l : List Prediction) : List Prediction :=
  l.foldr insert_by_date []

/-- Method `PredictionStorage.get_next`: `None` when the whole content is
empty; otherwise index 0 of the future predictions sorted by realization
date — which raises `IndexError` when no future prediction exists. -/
def get_next (content : Storage) (now : ℤ) : Except String (Option Prediction) :=
  if content.length = 0 then Except.ok none
  else
    match sort_by_date (get_future content now) with
    | [] => Except.error "IndexError: list index out of range"
    | p :: _ => Except.ok (some p)

/-- Method `PredictionStorage.get_last`: `None` when the whole content is
empty; otherwise the call `sorted(self.get_past(), key=..., reversed=True)`
raises a `TypeError` before sorting or indexing anything, because `reversed`
is not a keyword accepted by `sorted` (the valid keyword is `reverse`). -/
def get_last (content : Storage) (now : ℤ) : Except String (Option Prediction) :=
  if content.length = 0 then Except.ok none
  else Except.error "TypeError: reversed is an invalid keyword argument for sorted()"

end PredictionStorage

/-- C5 (amended): `get_past` holds exactly the stored records strictly before
`now` and `get_future` exactly those strictly after `now`; no record is in
both, and a record whose realization date equals `now` is in neither. -/
theorem past_future_strict_partition (content : Storage) (now : ℤ)
    (p : Prediction) :
    (p ∈ PredictionStorage.get_past content now ↔
      p ∈ PredictionStorage.values content ∧ p.realization_date < now) ∧
    (p ∈ PredictionStorage.get_future content now ↔
      p ∈ PredictionStorage.values content ∧ now < p.realization_date) ∧
    ¬(p ∈ PredictionStorage.get_past content now ∧
      p ∈ PredictionStorage.get_future content now) ∧
    (p.realization_date = now →
      p ∉ PredictionStorage.get_past content now ∧
      p ∉ PredictionStorage.get_future content now) := by
  refine ⟨?_, ?_, ?_, ?_⟩
  · simp [PredictionStorage.get_past, List.mem_filter]
  · simp [PredictionStorage.get_future, List.mem_filter]
  · rintro ⟨h1, h2⟩
    rw [PredictionStorage.get_past, List.mem_filter] at h1
    rw [PredictionStorage.get_future, List.mem_filter] at h2
    have hlt1 := of_decide_eq_true h1.2
    have hlt2 := of_decide_eq_true h2.2
    omega
  · intro he
    constructor <;> intro hmem
    · rw [PredictionStorage.get_past, List.mem_filter] at hmem
      have := of_decide_eq_true hmem.2
      omega
    · rw [PredictionStorage.get_future, List.mem_filter] at hmem
      have := of_decide_eq_true hmem.2
      omega

/-- A record that resolves exactly at the chosen `now`. -/
def p_boundary : Prediction :=
  { statement := "boundary".data, outcome := none, confidence := 1,
    realization_date := 0, emission_date := -1, tags := [], proof := some [] }

/-- A store holding only the boundary record. -/
def s_boundary : Storage := [("k0".data, p_boundary)]

/-- C5 (counterexample): a stored record whose realization date equals `now`
— so `realization_date ≤ now` reads true — is nevertheless absent from
`get_past`, which keeps only strictly earlier records. -/
theorem get_past_boundary_counterexample :
    p_boundary ∈ PredictionStorage.values s_boundary ∧
    p_boundary.realization_date ≤ 0 ∧
    p_boundary ∉ PredictionStorage.get_past s_boundary 0 := by
  refine ⟨List.mem_singleton_self p_boundary, le_refl 0, ?_⟩
  intro hmem
  rw [PredictionStorage.get_past, List.mem_filter] at hmem
  have := of_decide_eq_true hmem.2
  simp [p_boundary] at this

/-- Witness for C5 at the boundary store: the amended membership equivalence
holds there, and the boundary record is in neither derived set. -/
theorem past_future_strict_partition_witness :
    (p_boundary ∈ PredictionStorage.get_past s_boundary 0 ↔
      p_boundary ∈ PredictionStorage.values s_boundary ∧
        p_boundary.realization_date < 0) ∧
    (p_boundary ∉ PredictionStorage.get_past s_boundary 0 ∧
      p_boundary ∉ PredictionStorage.get_future s_boundary 0) :=
  ⟨(past_future_strict_partition s_boundary 0 p_boundary).1,
   (past_future_strict_partition s_boundary 0 p_boundary).2.2.2 rfl⟩

/-- A record realized strictly in the past relative to `now = 0`. -/
def p_past : Prediction :=
  { statement := "past".data, outcome := none, confidence := 1,
    realization_date := -1, emission_date := -2, tags := [], proof := some [] }

/-- A non-empty store holding only the past record. -/
def s_past : Storage := [("k1".data, p_past)]

/-- C6 (code bug): on a non-empty store with no future records, `get_next`
raises `IndexError` instead of returning `None`: the emptiness guard tests
the whole content rather than the filtered future list that gets indexed. -/
theorem get_next_index_error_on_past_only_store :
    s_past ≠ [] ∧
    PredictionStorage.get_future s_past 0 = [] ∧
    PredictionStorage.get_next s_past 0
      = Except.error "IndexError: list index out of range" :=
  ⟨List.cons_ne_nil _ _, rfl, rfl⟩

/-- C7 (code bug): on any non-empty store — here one whose single record even
is a past record — `get_last` raises a `TypeError` (`reversed` is not a
keyword of `sorted`) instead of returning the latest past record. -/
theorem get_last_type_error_on_nonempty_store :
    p_past ∈ PredictionStorage.get_past s_past 0 ∧
    PredictionStorage.get_last s_past 0
      = Except.error "TypeError: reversed is an invalid keyword argument for sorted()" :=
  ⟨show p_past ∈ [p_past] from List.mem_singleton_self p_past, rfl⟩

namespace InteractivePredictionSolver

/-- Static method `InteractivePredictionSolver.solve`: set the outcome to the
collected boolean and the proof to the collected text, an empty text
becoming `None`. -/
def solve (p : Prediction) (outcome : Bool) (proof_text : PyStr) : Prediction :=
  { p with outcome := some outcome,
           proof := if proof_text.length ≠ 0 then some proof_text else none }

end InteractivePredictionSolver

/-- C9: the fingerprint and the short id are functions of exactly the
quadruple (statement, confidence, realization date, emission date): equal
quadruples give equal identifiers under any digest, and resolving (outcome
and proof) or re-tagging a prediction changes neither. -/
theorem fingerprint_pure (md5 : PyStr → PyStr) (p q : Prediction)
    (hs : p.statement = q.statement) (hc : p.confidence = q.confidence)
    (hr : p.realization_date = q.realization_date)
    (he : p.emission_date = q.emission_date) :
    (p.hash md5 = q.hash md5 ∧ p.short_hash md5 = q.short_hash md5) ∧
    (∀ (o : Bool) (t : PyStr),
      (InteractivePredictionSolver.solve p o t).hash md5 = p.hash md5 ∧
      (InteractivePredictionSolver.solve p o t).short_hash md5
        = p.short_hash md5) ∧
    (∀ tag_input : PyStr,
      (InteractivePredictionBuilder.edit p tag_input).hash md5 = p.hash md5 ∧
      (InteractivePredictionBuilder.edit p tag_input).short_hash md5
        = p.short_hash md5) := by
  have hin : p.hash_input = q.hash_input := by
    unfold Prediction.hash_input
    rw [hs, hc, hr, he]
  have hh : p.hash md5 = q.hash md5 := by
    unfold Prediction.hash
    rw [hin]
  refine ⟨⟨hh, ?_⟩, fun o t => ⟨rfl, rfl⟩, fun tag_input => ⟨rfl, rfl⟩⟩
  unfold Prediction.short_hash
  rw [hh]

/-- Two predictions sharing the identity quadruple but differing in outcome,
proof and tags: the first component of the witness pair. -/
def p_pair_a : Prediction :=
  { statement := "same statement".data, outcome := none, confidence := 1,
    realization_date := 3, emission_date := 1, tags := [], proof := some [] }

/-- Two predictions sharing the identity quadruple but differing in outcome,
proof and tags: the second component of the witness pair. -/
def p_pair_b : Prediction :=
  { statement := "same statement".data, outcome := some false, confidence := 1,
    realization_date := 3, emission_date := 1, tags := ["T".data],
    proof := none }

/-- Witness for C9 at a concrete digest and a concrete pair differing only in
outcome, proof and tags. -/
theorem fingerprint_pure_witness :
    p_pair_a.hash id = p_pair_b.hash id ∧
    p_pair_a.short_hash id = p_pair_b.short_hash id :=
  (fingerprint_pure id p_pair_a p_pair_b rfl rfl rfl rfl).1

namespace PredictionStorage

/-- Resolution acting through the store: `InteractivePredictionSolver.solve`
mutates the fetched prediction object in place, so the entry under the
matching key gets the solved prediction and every other entry is untouched. -/
def resolve_at (content : Storage) (key : PyStr) (o : Bool) (t : PyStr) :
    Storage :=
  content.map (fun kv =>
    if kv.1 = key then (kv.1, InteractivePredictionSolver.solve kv.2 o t)
    else kv)

/-- Tag editing acting through the store: `InteractivePredictionBuilder.edit`
mutates the fetched prediction object in place, so the entry under the
matching key gets the re-tagged prediction and every other entry is
untouched. -/
def edit_tags_at (content : Storage) (key : PyStr) (tag_input : PyStr) :
    Storage :=
  content.map (fun kv =>
    if kv.1 = key then (kv.1, InteractivePredictionBuilder.edit kv.2 tag_input)
    else kv)

end PredictionStorage

/-- The stores reachable from the empty store by the four mutating
operations: add, delete, resolution through the solver, tag editing. -/
inductive Reachable (md5 : PyStr → PyStr) : Storage → Prop where
  | empty : Reachable md5 []
  | add (s : Storage) (p : Prediction) :
      Reachable md5 s → Reachable md5 (PredictionStorage.add md5 s p)
  | del (s : Storage) (k : PyStr) :
      Reachable md5 s → Reachable md5 (PredictionStorage.delete s k)
  | resolve (s : Storage) (k : PyStr) (o : Bool) (t : PyStr) :
      Reachable md5 s → Reachable md5 (PredictionStorage.resolve_at s k o t)
  | edit (s : Storage) (k : PyStr) (t : PyStr) :
      Reachable md5 s → Reachable md5 (PredictionStorage.edit_tags_at s k t)

/-- Lemma: an entry of a dict after assignment is an old entry or the
assigned pair. -/
theorem mem_dict_set {s : Storage} {k : PyStr} {p : Prediction}
    {kv : PyStr × Prediction}
    (h : kv ∈ PredictionStorage.dict_set s k p) : kv ∈ s ∨ kv = (k, p) := by
  unfold PredictionStorage.dict_set at h
  split at h
  · obtain ⟨kv0, hkv0, heq⟩ := List.mem_map.mp h
    by_cases hk : kv0.1 = k
    · right
      rw [if_pos hk] at heq
      exact heq.symm
    · left
      rw [if_neg hk] at heq
      exact heq ▸ hkv0
  · rcases List.mem_append.mp h with h1 | h2
    · exact Or.inl h1
    · exact Or.inr (List.mem_singleton.mp h2)

/-- C10: every entry of a store reachable from the empty store by add,
delete, resolution and tag editing is keyed by the short hash of the
prediction stored under it; resolution and tag editing preserve the
invariant because the hash reads none of the fields they change. -/
theorem store_key_invariant (md5 : PyStr → PyStr) (s : Storage)
    (h : Reachable md5 s) :
    ∀ kv ∈ s, kv.1 = kv.2.short_hash md5 := by
  induction h with
  | empty =>
    intro kv hkv
    cases hkv
  | add s p _ ih =>
    intro kv hkv
    rcases mem_dict_set hkv with h1 | h2
    · exact ih kv h1
    · rw [h2]
  | del s k _ ih =>
    intro kv hkv
    exact ih kv (List.mem_of_mem_filter hkv)
  | resolve s k o t _ ih =>
    intro kv hkv
    obtain ⟨kv0, hkv0, heq⟩ := List.mem_map.mp hkv
    by_cases hk : kv0.1 = k
    · rw [if_pos hk] at heq
      rw [← heq]
      exact ih kv0 hkv0
    · rw [if_neg hk] at heq
      exact heq ▸ ih kv0 hkv0
  | edit s k t _ ih =>
    intro kv hkv
    obtain ⟨kv0, hkv0, heq⟩ := List.mem_map.mp hkv
    by_cases hk : kv0.1 = k
    · rw [if_pos hk] at heq
      rw [← heq]
      exact ih kv0 hkv0
    · rw [if_neg hk] at heq
      exact heq ▸ ih kv0 hkv0

/-- A digest stand-in used to instantiate the C10 witness. -/
def md5_demo : PyStr → PyStr := fun s => s

/-- A store reached by one add followed by one resolution of the added
record. -/
def demo_store : Storage :=
  PredictionStorage.resolve_at
    (PredictionStorage.add md5_demo [] p_pair_a)
    (p_pair_a.short_hash md5_demo) true ("proof text".data)

/-- Lemma: the demonstration store is reachable. -/
theorem demo_store_reachable : Reachable md5_demo demo_store :=
  Reachable.resolve _ _ _ _ (Reachable.add _ _ Reachable.empty)

/-- Witness for C10 at the concrete reachable demonstration store. -/
theorem store_key_invariant_witness :
    Reachable md5_demo demo_store ∧
    ∀ kv ∈ demo_store, kv.1 = kv.2.short_hash md5_demo :=
  ⟨demo_store_reachable,
   store_key_invariant md5_demo demo_store demo_store_reachable⟩
